import Mathlib

/-! Shallow embedding of the Clojure-Sublimed nREPL client core
(`src/cs_main.py`): wire messages, the connection / eval-registry state,
the handshake state machine (`handle_connect`), message routing
(`handle_msg`), record discarding (`erase_eval`), identifier allocation
(`Eval.__init__` / `Eval.next_id`), and the buffered socket reader
(`SocketIO.read`, modelled here as `SocketReader.read`).

Python dicts carrying protocol messages are embedded as a structure of
optional fields, one per key the source reads or writes; `none` models
key absence.  Sends are made explicit: every state-changing operation
returns the list of requests it sent, in order.
-/

/-- The plugin namespace constant `ns = 'clojure-sublimed'` from `cs_main.py`. -/
def nsStr : String := "clojure-sublimed"

/-- Connection profiles (`class Profile` in `cs_main.py`). -/
inductive Profile
  | clojure
  | shadowCljs
deriving DecidableEq, Repr

/-- A protocol message (request or response): a Python dict embedded as one
optional field per key used in `cs_main.py`.  Field `mwX` stands for the
key `'clojure-sublimed.middleware/X'`; `newSession` for `'new-session'`;
`interruptId` for `'interrupt-id'`; `rootEx` for `'root-ex'`;
`truncatedKeys` for `'nrepl.middleware.print/truncated-keys'`. -/
structure Msg where
  op : Option String := none
  id : Option Nat := none
  session : Option String := none
  newSession : Option String := none
  status : Option (List String) := none
  code : Option String := none
  ns : Option String := none
  line : Option Int := none
  column : Option Int := none
  file : Option String := none
  filePath : Option String := none
  fileName : Option String := none
  middleware : Option (List String) := none
  extraNamespaces : Option (List String) := none
  interruptId : Option Nat := none
  value : Option String := none
  ex : Option String := none
  rootEx : Option String := none
  info : Option String := none
  sym : Option String := none
  mwRootExClass : Option String := none
  mwRootExMsg : Option String := none
  mwRootExData : Option String := none
  mwLine : Option Int := none
  mwColumn : Option Int := none
  mwSource : Option String := none
  mwTrace : Option String := none
  mwTimeTaken : Option Int := none
  mwCaught : Option String := none
  mwPrint : Option String := none
  mwQuota : Option Nat := none
  truncatedKeys : Option (List String) := none
deriving DecidableEq, Repr

/-- Python truthiness of an optional string (`None` and `''` are falsy). -/
def truthy : Option String → Bool
  | none => false
  | some s => s != ""

/-- A pending evaluation record (class `Eval` / `StatusEval` in
`cs_main.py`).  `view` is the id of the owning editor view
(`none` for a `StatusEval`); UI-only fields (regions, phantoms) are
not part of the protocol state. -/
structure EvalRec where
  id : Nat
  view : Option Nat := none
  status : String := "pending"
  code : String := ""
  session : Option String := none
  value : Option String := none
  trace : Option String := none
deriving DecidableEq, Repr

/-- Connection state (class `Connection` in `cs_main.py`).  The eval
registry `evals` is the association list `id → record`; the per-view
mirror `evals_by_view` is UI bookkeeping and is not modelled.
`socket` records whether a socket object is present. -/
structure Conn where
  profile : Option Profile := none
  session : Option String := none
  status : Option String := none
  evals : List (Nat × EvalRec) := []
  socket : Bool := false
  host : Option String := some "localhost"
  port : String := ""
  cljsBuild : Option String := none
deriving DecidableEq, Repr

/-- Ambient configuration read by the source through `common.setting` and
`sublime.load_resource`: the shared init code `eval_shared` and the
contents of `cs_middleware.clj`. -/
structure Settings where
  evalShared : Option String := none
  middlewareSourceFile : String := ""
deriving DecidableEq, Repr

/-- Models `msg["id"] in conn.evals` plus `conn.evals[id]`. -/
def lookupEval (c : Conn) (i : Nat) : Option EvalRec :=
  (c.evals.find? (fun p => p.1 == i)).map (·.2)

/-- Replace the record stored under key `i` (the source mutates the
record object in place). -/
def updateEval (c : Conn) (i : Nat) (e : EvalRec) : Conn :=
  { c with evals := c.evals.map (fun p => if p.1 == i then (p.1, e) else p) }

/-- Models `del self.evals[eval.id]`. -/
def removeEval (c : Conn) (i : Nat) : Conn :=
  { c with evals := c.evals.filter (fun p => !(p.1 == i)) }

/-- The interrupt request built in `Connection.erase_eval`:
`{"op": "interrupt", "interrupt-id": eval.id, "session": eval.session}`.
Note it carries no `id` key. -/
def interruptMsg (e : EvalRec) : Msg :=
  { op := some "interrupt", interruptId := some e.id, session := e.session }

/-- Models `Connection.erase_eval`: delete the record from the registry, then,
if its status is still `"pending"` and its session is truthy, send one
interrupt request.  Returns the new state and the requests sent. -/
def erase_eval (c : Conn) (e : EvalRec) : Conn × List Msg :=
  let c' := removeEval c e.id
  if e.status = "pending" ∧ truthy e.session then
    (c', [interruptMsg e])
  else
    (c', [])

/-- Observable events of one `erase_eval` call, in source order:
the registry deletion happens first, the interrupt send (when any)
happens after it. -/
inductive DiscardEvent
  | removed (id : Nat)
  | sent (m : Msg)
deriving DecidableEq, Repr

/-- The event trace of `Connection.erase_eval`, in the order the source
performs them: `del self.evals[eval.id]` precedes the conditional
`conn.send({... interrupt ...})`. -/
def erase_eval_events (e : EvalRec) : List DiscardEvent :=
  [DiscardEvent.removed e.id] ++
    (if e.status = "pending" ∧ truthy e.session then
      [DiscardEvent.sent (interruptMsg e)]
    else [])

/-- Models `Connection.reset`: drop the socket, clear the session and status,
erase every record (UI-only `eval.erase()`) and clear the registry.
No request is sent. -/
def Connection.reset (c : Conn) : Conn :=
  { c with socket := false, session := none, status := none, evals := [] }

/-- Models `Connection.disconnect`: if a socket is present, close it and `reset`.
Returns the new state and the (empty) list of requests sent. -/
def disconnect (c : Conn) : Conn × List Msg :=
  if c.socket then (Connection.reset c, []) else (c, [])

/-- The ordered middleware names sent by `add-middleware` in
`handle_connect`. -/
def middlewareNames : List String :=
  [nsStr ++ ".middleware/clone-and-eval",
   nsStr ++ ".middleware/time-eval",
   nsStr ++ ".middleware/wrap-errors",
   nsStr ++ ".middleware/wrap-output"]

/-- The `add-middleware` request of `handle_connect` (`cs_main.py`). -/
def addMiddlewareMsg (i : Nat) (sess : Option String) : Msg :=
  { op := some "add-middleware",
    middleware := some middlewareNames,
    extraNamespaces := some [nsStr ++ ".middleware"],
    session := sess,
    id := some i }

/-- Models `get_shadow_repl_init_cmd` from `cs_main.py`. -/
def get_shadow_repl_init_cmd (build : Option String) : String :=
  if build = some "node-repl" then "(shadow.cljs.devtools.api/node-repl)"
  else if build = some "browser-repl" then "(shadow.cljs.devtools.api/browser-repl)"
  else "(shadow.cljs.devtools.api/repl " ++ build.getD "" ++ ")"

/-- Models `_status_connected` from `cs_main.py`. -/
def statusConnected (c : Conn) : String :=
  "🌕 " ++ (if truthy c.host then c.host.getD "" ++ ":" else "") ++ c.port

/-- Models `handle_connect` from `cs_main.py`: the handshake state machine.
Branch order and conditions follow the source: the two shadow-cljs
branches run only under that profile; the remaining branches are checked
for every profile.  The `id=3` branch sends the shared-init eval but
returns falsy (the source has no `return True` there); all `status`
comparisons are equality with the one-element list `["done"]`.
Returns (new state, requests sent, claimed?). -/
def handle_connect (st : Settings) (c : Conn) (m : Msg) : Conn × List Msg × Bool :=
  if c.profile = some Profile.shadowCljs ∧ m.id = some 1 ∧ m.newSession.isSome then
    let c' := { c with session := m.newSession }
    (c', [{ op := some "eval", session := c'.session,
            code := some (get_shadow_repl_init_cmd c.cljsBuild), id := some 2 }], true)
  else if c.profile = some Profile.shadowCljs ∧ m.id = some 2 ∧ m.status = some ["done"] then
    ({ c with status := some (statusConnected c) }, [], true)
  else if m.id = some 1 ∧ m.newSession.isSome then
    let c' := { c with session := m.newSession }
    ({ c' with status := some "🌓 Uploading middlewares" },
     [{ op := some "load-file", session := c'.session,
        file := some st.middlewareSourceFile, id := some 2 }], true)
  else if m.id = some 2 ∧ m.status = some ["done"] then
    ({ c with status := some "🌔 Adding middlewares" },
     [addMiddlewareMsg (if truthy st.evalShared then 3 else 4) c.session], true)
  else if m.id = some 3 ∧ m.status = some ["done"] then
    (c, [{ op := some "eval", code := st.evalShared,
           session := c.session, id := some 4 }], false)
  else if m.id = some 4 ∧ m.status = some ["done"] then
    ({ c with status := some (statusConnected c) }, [], true)
  else (c, [], false)

/-- Models `handle_new_session` from `cs_main.py`. -/
def handle_new_session (c : Conn) (m : Msg) : Conn × List Msg × Bool :=
  match m.newSession, m.id with
  | some s, some i =>
    (match lookupEval c i with
     | some e => (updateEval c i { e with session := some s }, [], true)
     | none => (c, [], false))
  | _, _ => (c, [], false)

/-- Models `handle_value` from `cs_main.py`: marks the record `"success"` and
stores the value (the time-taken field only affects display text). -/
def handle_value (c : Conn) (m : Msg) : Conn × List Msg × Bool :=
  match m.value, m.id with
  | some _, some i =>
    (match lookupEval c i with
     | some e => (updateEval c i { e with status := "success", value := m.value }, [], true)
     | none => (c, [], false))
  | _, _ => (c, [], false)

/-- The guard of `handle_exception`'s structured branch:
`get("root-ex-class") and get("root-ex-msg")` (Python truthiness). -/
def structured_cond (m : Msg) : Bool :=
  truthy m.mwRootExClass && truthy m.mwRootExMsg

/-- The composite summary text built by `handle_exception`'s structured
branch: class, message, optional data, and — when the record has no view
but a source location is present — the `(source:line:column)` suffix. -/
def structured_ex_text (m : Msg) (e : EvalRec) : String :=
  let t0 := m.mwRootExClass.getD "" ++ ": " ++ m.mwRootExMsg.getD ""
  let t1 := if truthy m.mwRootExData then t0 ++ " " ++ m.mwRootExData.getD "" else t0
  if m.mwLine.isSome ∧ m.mwColumn.isSome ∧ e.view.isSome then t1
  else if m.mwLine.isSome ∧ m.mwColumn.isSome ∧ truthy m.mwSource then
    t1 ++ " (" ++ m.mwSource.getD "" ++ ":" ++ toString (m.mwLine.getD 0)
       ++ ":" ++ toString (m.mwColumn.getD 0) ++ ")"
  else t1

/-- The four classification branches of `handle_exception`. -/
inductive ExnCase
  | structured
  | rootExCase
  | rawExCase
  | nsNotFound
deriving DecidableEq, Repr

/-- Which branch of `handle_exception`'s if/elif chain fires, in source
order (first match wins); `none` when no branch applies. -/
def classify_exception (m : Msg) : Option ExnCase :=
  if structured_cond m then some ExnCase.structured
  else if m.rootEx.isSome then some ExnCase.rootExCase
  else if m.ex.isSome then some ExnCase.rawExCase
  else if (m.status.getD []).contains "namespace-not-found" then some ExnCase.nsNotFound
  else none

/-- Models `handle_exception` from `cs_main.py`.  The structured branch stores
the composite text and the trace and claims the message; the `root-ex`
and `ex` branches store the raw string and claim; the
`namespace-not-found` branch updates the record but returns falsy
(the source has no `return True` there). -/
def handle_exception (c : Conn) (m : Msg) : Conn × List Msg × Bool :=
  match m.id with
  | none => (c, [], false)
  | some i =>
    match lookupEval c i with
    | none => (c, [], false)
    | some e =>
      if structured_cond m then
        (updateEval c i { e with trace := m.mwTrace, status := "exception",
                                 value := some (structured_ex_text m e) }, [], true)
      else if m.rootEx.isSome then
        (updateEval c i { e with status := "exception", value := m.rootEx }, [], true)
      else if m.ex.isSome then
        (updateEval c i { e with status := "exception", value := m.ex }, [], true)
      else if (m.status.getD []).contains "namespace-not-found" then
        (updateEval c i { e with
           status := "exception",
           value := some ("Namespace not found: " ++ m.ns.getD "") }, [], false)
      else (c, [], false)

/-- Models `handle_lookup` from `cs_main.py` (phantom rendering is UI-only). -/
def handle_lookup (c : Conn) (m : Msg) : Conn × List Msg × Bool :=
  match m.info, m.id with
  | some _, some i =>
    (match lookupEval c i with
     | some e => (updateEval c i { e with status := "lookup", value := none }, [], true)
     | none => (c, [], false))
  | _, _ => (c, [], false)

/-- Models `handle_done` from `cs_main.py`: a registered id with `"done"` in its
status set and no terminal outcome recorded is discarded via
`erase_eval`.  The handler itself always returns falsy. -/
def handle_done (c : Conn) (m : Msg) : Conn × List Msg × Bool :=
  match m.id with
  | none => (c, [], false)
  | some i =>
    match lookupEval c i with
    | none => (c, [], false)
    | some e =>
      if (m.status.getD []).contains "done" then
        if e.status = "success" ∨ e.status = "exception" then (c, [], false)
        else
          let r := erase_eval c e
          (r.1, r.2, false)
      else (c, [], false)

/-- The truncation pre-pass of `handle_msg`: for every key named in
`nrepl.middleware.print/truncated-keys`, append an ellipsis to that
key's value before any routing logic runs. -/
def truncate_msg (m : Msg) : Msg :=
  (m.truncatedKeys.getD []).foldl
    (fun acc k =>
      if k = "value" then { acc with value := acc.value.map (· ++ "...") }
      else if k = "root-ex" then { acc with rootEx := acc.rootEx.map (· ++ "...") }
      else if k = "ex" then { acc with ex := acc.ex.map (· ++ "...") }
      else if k = nsStr ++ ".middleware/trace" then
        { acc with mwTrace := acc.mwTrace.map (· ++ "...") }
      else acc)
    m

/-- Models `handle_msg` from `cs_main.py`: truncation pre-pass, then the
short-circuiting `or`-chain of handlers.  A handler that returns falsy
keeps its state effects and lets the next handler run. -/
def handle_msg (st : Settings) (c : Conn) (m0 : Msg) : Conn × List Msg :=
  let m := truncate_msg m0
  let r1 := handle_connect st c m
  if r1.2.2 then (r1.1, r1.2.1) else
  let r2 := handle_new_session r1.1 m
  if r2.2.2 then (r2.1, r1.2.1 ++ r2.2.1) else
  let r3 := handle_value r2.1 m
  if r3.2.2 then (r3.1, r1.2.1 ++ r2.2.1 ++ r3.2.1) else
  let r4 := handle_exception r3.1 m
  if r4.2.2 then (r4.1, r1.2.1 ++ r2.2.1 ++ r3.2.1 ++ r4.2.1) else
  let r5 := handle_lookup r4.1 m
  if r5.2.2 then (r5.1, r1.2.1 ++ r2.2.1 ++ r3.2.1 ++ r4.2.1 ++ r5.2.1) else
  let r6 := handle_done r5.1 m
  (r6.1, r1.2.1 ++ r2.2.1 ++ r3.2.1 ++ r4.2.1 ++ r5.2.1 ++ r6.2.1)

/-- The initial `clone` request sent by `read_loop`
(`conn.pending_id = 1`). -/
def cloneMsg : Msg := { op := some "clone", id := some 1 }

/-- The immediate server reply assumed by the handshake-ordering
property: a `clone` request is answered with a `new-session`, every
other request with `status = ["done"]`, on the request's own id. -/
def responseFor (m : Msg) : Msg :=
  if m.op = some "clone" then { id := m.id, newSession := some "sess0" }
  else { id := m.id, status := some ["done"] }

/-- Drive `handle_msg` over the queue of outstanding requests, answering
each one with `responseFor`, and collect every request sent, in order.
`fuel` bounds the number of exchanges. -/
def runHandshake (st : Settings) : Nat → Conn → List Msg → Conn × List Msg
  | 0, c, _ => (c, [])
  | _ + 1, c, [] => (c, [])
  | fuel + 1, c, req :: rest =>
    let r := handle_msg st c (responseFor req)
    let r' := runHandshake st fuel r.1 (rest ++ r.2)
    (r'.1, r.2 ++ r'.2)

/-- Connection state right after `connect(host, port, profile,
cljs_build)` succeeds and before `read_loop` starts. -/
def connInit (p : Profile) (build : Option String) : Conn :=
  { profile := some p, session := none, status := none, evals := [],
    socket := true, host := some "localhost", port := "8888", cljsBuild := build }

/-- All requests sent after connect — the initial `clone` from
`read_loop` followed by everything the handshake sends — together with
the final connection state. -/
def handshakeTrace (st : Settings) (c : Conn) : Conn × List Msg :=
  let r := runHandshake st 8 c [cloneMsg]
  (r.1, cloneMsg :: r.2)

/-- Initial value of the class attribute `Eval.next_id`. -/
def nextIdInit : Nat := 10

/-- One identifier allocation (`self.id = Eval.next_id; Eval.next_id += 1`):
returns the id handed out and the new counter. -/
def allocId (n : Nat) : Nat × Nat := (n, n + 1)

/-- The ids returned by `k` successive allocations starting from
counter value `n`. -/
def allocIds : Nat → Nat → List Nat
  | _, 0 => []
  | n, k + 1 => n :: allocIds (n + 1) k

/-- Python truthiness filter on an optional string (`{k: v ... if v}`). -/
def sfS (o : Option String) : Option String :=
  o.bind fun s => if s = "" then none else some s

/-- Python truthiness filter on an optional integer (`0` is falsy). -/
def sfI (o : Option Int) : Option Int :=
  o.bind fun n => if n = 0 then none else some n

/-- Python truthiness filter on an optional natural (`0` is falsy). -/
def sfN (o : Option Nat) : Option Nat :=
  o.bind fun n => if n = 0 then none else some n

/-- Python truthiness filter on an optional list (`[]` is falsy). -/
def sfL (o : Option (List String)) : Option (List String) :=
  o.bind fun l => if l = [] then none else some l

/-- The dict comprehension `{k: v for k, v in msg.items() if v}` in
`eval_msg`: drop every falsy entry. -/
def stripFalsy (m : Msg) : Msg :=
  { op := sfS m.op, id := sfN m.id, session := sfS m.session,
    newSession := sfS m.newSession, status := sfL m.status, code := sfS m.code,
    ns := sfS m.ns, line := sfI m.line, column := sfI m.column,
    file := sfS m.file, filePath := sfS m.filePath, fileName := sfS m.fileName,
    middleware := sfL m.middleware, extraNamespaces := sfL m.extraNamespaces,
    interruptId := sfN m.interruptId, value := sfS m.value, ex := sfS m.ex,
    rootEx := sfS m.rootEx, info := sfS m.info, sym := sfS m.sym,
    mwRootExClass := sfS m.mwRootExClass, mwRootExMsg := sfS m.mwRootExMsg,
    mwRootExData := sfS m.mwRootExData, mwLine := sfI m.mwLine,
    mwColumn := sfI m.mwColumn, mwSource := sfS m.mwSource,
    mwTrace := sfS m.mwTrace, mwTimeTaken := sfI m.mwTimeTaken,
    mwCaught := sfS m.mwCaught, mwPrint := sfS m.mwPrint,
    mwQuota := sfN m.mwQuota, truncatedKeys := sfL m.truncatedKeys }

/-- Models `get_middleware_opts` from `cs_main.py`, merged into a message as
`msg.update(...)` does: only the Clojure profile adds the three
middleware keys. -/
def get_middleware_opts (c : Conn) (m : Msg) : Msg :=
  if c.profile = some Profile.clojure then
    { m with mwCaught := some (nsStr ++ ".middleware/print-root-trace"),
             mwPrint := some (nsStr ++ ".middleware/pprint"),
             mwQuota := some 4096 }
  else m

/-- The request built by `eval_msg` in `cs_main.py`: strip falsy entries
from the caller's message, then set `id` to the freshly allocated
identifier and `session` to the connection's session, then merge the
middleware options. -/
def eval_msg_build (c : Conn) (base : Msg) (eid : Nat) : Msg :=
  get_middleware_opts c { stripFalsy base with id := some eid, session := c.session }

/-- The request built by `ClojureSublimedEvalCodeCommand.run`:
`{"op": "eval", "id": eval.id, "ns": ns or 'user', "code": code}` plus
middleware options.  Note it carries no `session` key. -/
def eval_code_msg (c : Conn) (code : String) (nsOpt : Option String) (eid : Nat) : Msg :=
  get_middleware_opts c
    { op := some "eval", id := some eid,
      ns := some (if truthy nsOpt then nsOpt.getD "" else "user"),
      code := some code }

/-- The request sent by `ClojureSublimedInterruptEvalCommand.run` for a
pending record: `{"op": "interrupt", "session": eval.session,
"interrupt-id": eval.id}`.  Note it carries no `id` key. -/
def interrupt_command_msg (e : EvalRec) : Msg :=
  { op := some "interrupt", session := e.session, interruptId := some e.id }

/-- The request sent by `ClojureSublimedToggleSymbolCommand.run`:
`{"op": "lookup", "sym": ..., "session": conn.session, "id": eval.id,
"ns": ...}`. -/
def lookup_msg (c : Conn) (symName : String) (eid : Nat) (nsName : String) : Msg :=
  { op := some "lookup", sym := some symName, session := c.session,
    id := some eid, ns := some nsName }

/-- The pull-based byte source `SocketIO` from `cs_main.py` (named
`SocketReader` here).  The socket is modelled by `chunks`: the successive
non-empty byte strings `recv(4096)` will return, exhausted at
end-of-stream (a blocking `recv` returns at least one byte unless the
peer has closed, after which it returns `b''` forever).  `buffer` is
`None`-or-`b''` collapsed to `[]`; `pos` starts at `-1` as in the
source. -/
structure SocketReader where
  chunks : List (List Nat)
  buffer : List Nat
  pos : Int
deriving DecidableEq, Repr

/-- Models `SocketIO.__init__`: no buffer, `pos = -1`. -/
def SocketReader.init (chunks : List (List Nat)) : SocketReader :=
  { chunks := chunks, buffer := [], pos := -1 }

/-- Models `self.socket.recv(4096)`: the next chunk, or `b''` at end-of-stream. -/
def recvChunk : List (List Nat) → List Nat × List (List Nat)
  | [] => ([], [])
  | c :: rest => (c, rest)

/-- Models `SocketIO.read`: refill the buffer from the socket when it is absent
or exhausted, then hand out the slice `buffer[pos : min (pos+n, len)]`
and advance the cursor. -/
def SocketReader.read (s : SocketReader) (n : Nat) : List Nat × SocketReader :=
  let s1 :=
    if s.buffer = [] ∨ (s.buffer.length : Int) ≤ s.pos then
      let r := recvChunk s.chunks
      { chunks := r.2, buffer := r.1, pos := 0 }
    else s
  let b0 := s1.pos.toNat
  let e0 := min (b0 + n) s1.buffer.length
  ((s1.buffer.drop b0).take (e0 - b0), { s1 with pos := (e0 : Int) })

/-- The bytes the reader has not yet delivered: the unread tail of the
buffer followed by everything still on the socket. -/
def SocketReader.rest (s : SocketReader) : List Nat :=
  s.buffer.drop s.pos.toNat ++ s.chunks.flatten

/-- Reachable-state invariant of `SocketReader`: the cursor is
non-negative unless the buffer is absent, and the socket yields
non-empty chunks until end-of-stream. -/
def SocketReader.wf (s : SocketReader) : Prop :=
  (0 ≤ s.pos ∨ s.buffer = []) ∧ ∀ ck ∈ s.chunks, ck ≠ []

/-- A sequence of `read` calls with the given sizes, collecting each
call's result in order. -/
def SocketReader.readMany (s : SocketReader) : List Nat → List (List Nat) × SocketReader
  | [] => ([], s)
  | n :: ks =>
    let r := s.read n
    let r' := r.2.readMany ks
    (r.1 :: r'.1, r'.2)

/-- C1: for the default profile, the requests sent after connect — each
`done` answered immediately — are exactly `clone(id 1)`,
`load-file(id 2)`, `add-middleware(id 3` when shared init code is
configured, `id 4` when not`)`, then the shared-init `eval(id 4)` only
in the former case; for the shadow-cljs profile they are `clone(id 1)`
and the host-init `eval(id 2)`, and the connection publishes the
connected status on `id 2`'s `done`. -/
theorem handshake_ordering_C1 (mwSrc code : String) (build : Option String)
    (hcode : code ≠ "") :
    (handshakeTrace { evalShared := some code, middlewareSourceFile := mwSrc }
        (connInit Profile.clojure none)).2 =
      [cloneMsg,
       { op := some "load-file", session := some "sess0", file := some mwSrc, id := some 2 },
       addMiddlewareMsg 3 (some "sess0"),
       { op := some "eval", code := some code, session := some "sess0", id := some 4 }] ∧
    (handshakeTrace { evalShared := none, middlewareSourceFile := mwSrc }
        (connInit Profile.clojure none)).2 =
      [cloneMsg,
       { op := some "load-file", session := some "sess0", file := some mwSrc, id := some 2 },
       addMiddlewareMsg 4 (some "sess0")] ∧
    (handshakeTrace { evalShared := none, middlewareSourceFile := mwSrc }
        (connInit Profile.shadowCljs build)).2 =
      [cloneMsg,
       { op := some "eval", session := some "sess0",
         code := some (get_shadow_repl_init_cmd build), id := some 2 }] ∧
    (handshakeTrace { evalShared := none, middlewareSourceFile := mwSrc }
        (connInit Profile.shadowCljs build)).1.status =
      some (statusConnected (connInit Profile.shadowCljs build)) := by
  refine ⟨?_, rfl, rfl, rfl⟩
  have hb : (code != "") = true := bne_iff_ne.mpr hcode
  simp [handshakeTrace, runHandshake, handle_msg, truncate_msg, responseFor,
        handle_connect, handle_new_session, handle_value, handle_exception,
        handle_lookup, handle_done, lookupEval, structured_cond, truthy,
        connInit, cloneMsg, addMiddlewareMsg, middlewareNames, erase_eval,
        removeEval, updateEval, interruptMsg, statusConnected, hb]

/-- Witness for C1 at `mwSrc = "MW"`, `code = "(init)"`,
`build = some "app"`. -/
theorem handshake_ordering_C1_witness :
    (handshakeTrace { evalShared := some "(init)", middlewareSourceFile := "MW" }
        (connInit Profile.clojure none)).2 =
      [cloneMsg,
       { op := some "load-file", session := some "sess0", file := some "MW", id := some 2 },
       addMiddlewareMsg 3 (some "sess0"),
       { op := some "eval", code := some "(init)", session := some "sess0", id := some 4 }] ∧
    (handshakeTrace { evalShared := none, middlewareSourceFile := "MW" }
        (connInit Profile.clojure none)).2 =
      [cloneMsg,
       { op := some "load-file", session := some "sess0", file := some "MW", id := some 2 },
       addMiddlewareMsg 4 (some "sess0")] ∧
    (handshakeTrace { evalShared := none, middlewareSourceFile := "MW" }
        (connInit Profile.shadowCljs (some "app"))).2 =
      [cloneMsg,
       { op := some "eval", session := some "sess0",
         code := some (get_shadow_repl_init_cmd (some "app")), id := some 2 }] ∧
    (handshakeTrace { evalShared := none, middlewareSourceFile := "MW" }
        (connInit Profile.shadowCljs (some "app"))).1.status =
      some (statusConnected (connInit Profile.shadowCljs (some "app"))) :=
  handshake_ordering_C1 "MW" "(init)" (some "app") (by decide)

/-- C6 (amended): in the default profile, a response with id 2 whose
status is exactly the one-element list `["done"]` advances the handshake
and sends `add-middleware` with id 3 or 4 depending on whether shared
init code is configured.  (The source compares `msg.get("status")`
against the list `["done"]` by equality, not by membership.) -/
theorem handshake_done_marker_C6 (st : Settings) (c : Conn) (m : Msg)
    (hp : c.profile = some Profile.clojure) (hid : m.id = some 2)
    (hst : m.status = some ["done"]) :
    handle_connect st c m =
      ({ c with status := some "🌔 Adding middlewares" },
       [addMiddlewareMsg (if truthy st.evalShared then 3 else 4) c.session], true) := by
  simp [handle_connect, hp, hid, hst]

/-- The connection state used by the C6 theorems: default profile,
session already established. -/
def c6_conn : Conn :=
  { profile := some Profile.clojure, session := some "sess0", status := none,
    evals := [], socket := true, host := some "localhost", port := "8888",
    cljsBuild := none }

/-- Witness for C6 (amended) at a concrete connection and message. -/
theorem handshake_done_marker_C6_witness :
    handle_connect { evalShared := some "(init)", middlewareSourceFile := "MW" }
        c6_conn { id := some 2, status := some ["done"] } =
      ({ c6_conn with status := some "🌔 Adding middlewares" },
       [addMiddlewareMsg
          (if truthy (Settings.mk (some "(init)") "MW").evalShared then 3 else 4)
          c6_conn.session], true) :=
  handshake_done_marker_C6 { evalShared := some "(init)", middlewareSourceFile := "MW" }
    c6_conn { id := some 2, status := some ["done"] } rfl rfl rfl

/-- C6 counterexample: a response with id 2 whose status set contains
`done` together with another marker does not advance the handshake —
`handle_connect` leaves the state unchanged and sends nothing, because
the source requires `status == ["done"]` exactly. -/
theorem handshake_done_marker_C6_counterexample :
    "done" ∈ (({ id := some 2, status := some ["done", "state"] } : Msg).status.getD []) ∧
    handle_connect { evalShared := some "(init)", middlewareSourceFile := "MW" }
        c6_conn { id := some 2, status := some ["done", "state"] } =
      (c6_conn, [], false) :=
  ⟨by decide, rfl⟩

/-- C2 (amended): discarding a record whose status is `pending` and whose
session is non-empty sends exactly one interrupt request carrying that
record's id (as `interrupt-id`) and session — sent immediately AFTER the
record is removed from the registry, not before — and discarding a
record with a terminal `success`/`exception` status sends no interrupt. -/
theorem interrupt_on_discard_C2 (c : Conn) (e : EvalRec) :
    (e.status = "pending" → truthy e.session = true →
      erase_eval c e = (removeEval c e.id, [interruptMsg e]) ∧
      (interruptMsg e).interruptId = some e.id ∧
      (interruptMsg e).session = e.session ∧
      erase_eval_events e =
        [DiscardEvent.removed e.id, DiscardEvent.sent (interruptMsg e)]) ∧
    (e.status = "success" ∨ e.status = "exception" → (erase_eval c e).2 = []) := by
  constructor
  · intro h1 h2
    refine ⟨?_, rfl, rfl, ?_⟩
    · simp [erase_eval, h1, h2]
    · simp [erase_eval_events, h1, h2]
  · rintro (h | h) <;> simp [erase_eval, h]

/-- A pending record with a session, used by the C2/C7 theorems. -/
def c2_rec : EvalRec :=
  { id := 10, view := none, status := "pending", code := "(+ 1 2)",
    session := some "sessA", value := none, trace := none }

/-- A terminal (succeeded) record, used by the C2 witness. -/
def c2_term_rec : EvalRec :=
  { id := 11, view := none, status := "success", code := "1",
    session := some "sessA", value := some "1", trace := none }

/-- A ready connection holding both records, used by the C2/C7 theorems. -/
def c2_conn : Conn :=
  { profile := some Profile.clojure, session := some "sess0", status := none,
    evals := [(10, c2_rec), (11, c2_term_rec)], socket := true,
    host := some "localhost", port := "8888", cljsBuild := none }

/-- Witness for C2 (amended) at concrete records. -/
theorem interrupt_on_discard_C2_witness :
    erase_eval c2_conn c2_rec = (removeEval c2_conn c2_rec.id, [interruptMsg c2_rec]) ∧
    erase_eval_events c2_rec =
      [DiscardEvent.removed c2_rec.id, DiscardEvent.sent (interruptMsg c2_rec)] ∧
    (erase_eval c2_conn c2_term_rec).2 = [] :=
  ⟨((interrupt_on_discard_C2 c2_conn c2_rec).1 rfl rfl).1,
   ((interrupt_on_discard_C2 c2_conn c2_rec).1 rfl rfl).2.2.2,
   (interrupt_on_discard_C2 c2_conn c2_term_rec).2 (Or.inl rfl)⟩

/-- C2 counterexample: in `erase_eval`'s event trace for a concrete
pending record with a session, the registry removal comes first and the
interrupt send second, so the claim that the interrupt is sent BEFORE
the record is removed is false on the code. -/
theorem interrupt_before_removal_C2_counterexample :
    erase_eval_events c2_rec =
      [DiscardEvent.removed 10, DiscardEvent.sent (interruptMsg c2_rec)] ∧
    ¬ ((erase_eval_events c2_rec).indexOf (DiscardEvent.sent (interruptMsg c2_rec)) <
       (erase_eval_events c2_rec).indexOf (DiscardEvent.removed 10)) :=
  ⟨rfl, by decide⟩

/-- C7: disconnecting an open connection resets the session token to
absent, discards all evaluation records in the same operation, and sends
no protocol message (in particular no interrupt). -/
theorem disconnect_teardown_C7 (c : Conn) (h : c.socket = true) :
    (disconnect c).1.session = none ∧ (disconnect c).1.evals = [] ∧
    (disconnect c).1.status = none ∧ (disconnect c).2 = [] := by
  simp [disconnect, h, Connection.reset]

/-- Witness for C7 at a connection holding a pending record with a
session (the situation where `erase_eval` would have interrupted). -/
theorem disconnect_teardown_C7_witness :
    (disconnect c2_conn).1.session = none ∧ (disconnect c2_conn).1.evals = [] ∧
    (disconnect c2_conn).1.status = none ∧ (disconnect c2_conn).2 = [] :=
  disconnect_teardown_C7 c2_conn rfl

/-- C10: a response whose status contains `done`, addressed to a
registered record that is still `pending` and holds a non-empty session,
makes `handle_done` discard the record and thereby send an interrupt
request carrying that record's id and session — an outgoing interrupt
for work the server just reported complete. -/
theorem done_triggers_interrupt_C10 (c : Conn) (m : Msg) (i : Nat) (e : EvalRec)
    (hid : m.id = some i) (hreg : lookupEval c i = some e)
    (hdone : "done" ∈ m.status.getD []) (hpend : e.status = "pending")
    (hsess : truthy e.session = true) :
    handle_done c m = (removeEval c e.id, [interruptMsg e], false) ∧
    (interruptMsg e).interruptId = some e.id ∧ (interruptMsg e).session = e.session := by
  refine ⟨?_, rfl, rfl⟩
  simp [handle_done, hid, hreg, hpend, hsess, erase_eval, hdone]

/-- The registered pending record and `done` response used by the C10
witness. -/
def c10_conn : Conn :=
  { profile := some Profile.clojure, session := some "sess0", status := none,
    evals := [(10, c2_rec)], socket := true, host := some "localhost",
    port := "8888", cljsBuild := none }

/-- Witness for C10 at a concrete `done` acknowledgment. -/
theorem done_triggers_interrupt_C10_witness :
    handle_done c10_conn { id := some 10, status := some ["done"] } =
      (removeEval c10_conn c2_rec.id, [interruptMsg c2_rec], false) ∧
    (interruptMsg c2_rec).interruptId = some c2_rec.id ∧
    (interruptMsg c2_rec).session = c2_rec.session :=
  done_triggers_interrupt_C10 c10_conn { id := some 10, status := some ["done"] }
    10 c2_rec rfl rfl (by decide) rfl rfl

/-- The truncation pre-pass never changes a message's id. -/
theorem truncate_msg_id (m : Msg) : (truncate_msg m).id = m.id := by
  unfold truncate_msg
  generalize m.truncatedKeys.getD [] = ks
  induction ks generalizing m with
  | nil => rfl
  | cons k ks ih =>
    simp only [List.foldl_cons]
    rw [ih]
    split <;> try rfl
    all_goals split <;> try rfl
    all_goals split <;> try rfl
    all_goals split <;> rfl

/-- The handshake handler `handle_connect` ignores any message whose id is outside the
handshake identifiers 1–4. -/
theorem handle_connect_unknown_id (st : Settings) (c : Conn) (m : Msg) (i : Nat)
    (hid : m.id = some i) (h1 : i ≠ 1) (h2 : i ≠ 2) (h3 : i ≠ 3) (h4 : i ≠ 4) :
    handle_connect st c m = (c, [], false) := by
  simp [handle_connect, hid, h1, h2, h3, h4]

/-- The handler `handle_new_session` ignores a message whose id is not registered. -/
theorem handle_new_session_unknown (c : Conn) (m : Msg) (i : Nat)
    (hid : m.id = some i) (hreg : lookupEval c i = none) :
    handle_new_session c m = (c, [], false) := by
  cases hns : m.newSession <;> simp [handle_new_session, hns, hid, hreg]

/-- The handler `handle_value` ignores a message whose id is not registered. -/
theorem handle_value_unknown (c : Conn) (m : Msg) (i : Nat)
    (hid : m.id = some i) (hreg : lookupEval c i = none) :
    handle_value c m = (c, [], false) := by
  cases hv : m.value <;> simp [handle_value, hv, hid, hreg]

/-- The handler `handle_exception` ignores a message whose id is not registered. -/
theorem handle_exception_unknown (c : Conn) (m : Msg) (i : Nat)
    (hid : m.id = some i) (hreg : lookupEval c i = none) :
    handle_exception c m = (c, [], false) := by
  simp [handle_exception, hid, hreg]

/-- The handler `handle_lookup` ignores a message whose id is not registered. -/
theorem handle_lookup_unknown (c : Conn) (m : Msg) (i : Nat)
    (hid : m.id = some i) (hreg : lookupEval c i = none) :
    handle_lookup c m = (c, [], false) := by
  cases hin : m.info <;> simp [handle_lookup, hin, hid, hreg]

/-- The handler `handle_done` ignores a message whose id is not registered. -/
theorem handle_done_unknown (c : Conn) (m : Msg) (i : Nat)
    (hid : m.id = some i) (hreg : lookupEval c i = none) :
    handle_done c m = (c, [], false) := by
  simp [handle_done, hid, hreg]

/-- C4: routing a response whose id is not a handshake identifier and is
absent from the registry is a no-op: the state (registry, session token,
connection status) is unchanged and no request is sent. -/
theorem unknown_id_noop_C4 (st : Settings) (c : Conn) (m : Msg) (i : Nat)
    (hid : m.id = some i) (hnot : i ∉ ([1, 2, 3, 4] : List Nat))
    (hreg : lookupEval c i = none) :
    handle_msg st c m = (c, []) := by
  have h1 : i ≠ 1 := fun h => hnot (by simp [h])
  have h2 : i ≠ 2 := fun h => hnot (by simp [h])
  have h3 : i ≠ 3 := fun h => hnot (by simp [h])
  have h4 : i ≠ 4 := fun h => hnot (by simp [h])
  have hid' : (truncate_msg m).id = some i := by rw [truncate_msg_id, hid]
  simp only [handle_msg,
      handle_connect_unknown_id st c (truncate_msg m) i hid' h1 h2 h3 h4,
      handle_new_session_unknown c (truncate_msg m) i hid' hreg,
      handle_value_unknown c (truncate_msg m) i hid' hreg,
      handle_exception_unknown c (truncate_msg m) i hid' hreg,
      handle_lookup_unknown c (truncate_msg m) i hid' hreg,
      handle_done_unknown c (truncate_msg m) i hid' hreg]
  simp

/-- A ready connection with one registered record (id 10), used by the
C4 witness. -/
def c4_conn : Conn :=
  { profile := some Profile.clojure, session := some "sess0", status := none,
    evals := [(10, { id := 10, view := some 7, status := "pending", code := "(x)",
                     session := some "sessB", value := none, trace := none })],
    socket := true, host := some "localhost", port := "8888", cljsBuild := none }

/-- A late response for a discarded identifier, used by the C4 witness. -/
def c4_msg : Msg := { id := some 99, value := some "3", status := some ["done"] }

/-- Witness for C4: the late response for discarded id 99 changes
nothing and sends nothing. -/
theorem unknown_id_noop_C4_witness :
    handle_msg { evalShared := some "(init)", middlewareSourceFile := "MW" }
      c4_conn c4_msg = (c4_conn, []) :=
  unknown_id_noop_C4 { evalShared := some "(init)", middlewareSourceFile := "MW" }
    c4_conn c4_msg 99 rfl (by decide) rfl

/-- The handler `handle_exception` behaves exactly as its classification dictates:
the unique branch `classify_exception` picks is the one whose effect is
applied to the registered record. -/
theorem handle_exception_classified (c : Conn) (m : Msg) (i : Nat) (e : EvalRec)
    (hid : m.id = some i) (hreg : lookupEval c i = some e) :
    handle_exception c m =
      match classify_exception m with
      | some ExnCase.structured =>
        (updateEval c i { e with trace := m.mwTrace, status := "exception",
                                 value := some (structured_ex_text m e) }, [], true)
      | some ExnCase.rootExCase =>
        (updateEval c i { e with status := "exception", value := m.rootEx }, [], true)
      | some ExnCase.rawExCase =>
        (updateEval c i { e with status := "exception", value := m.ex }, [], true)
      | some ExnCase.nsNotFound =>
        (updateEval c i { e with
           status := "exception",
           value := some ("Namespace not found: " ++ m.ns.getD "") }, [], false)
      | none => (c, [], false) := by
  simp only [handle_exception, classify_exception, hid, hreg]
  split_ifs <;> rfl

/-- C3: an exception message carrying both a structured root-cause
class/message and a raw `ex` field takes the structured path — composite
summary from class, message, optional data and source location, record
marked `exception` with the trace attached — and never the raw `ex`
fallback (removing the raw fields does not change the outcome); across
the four classification branches exactly one fires per exception
message, first match wins (each branch fires precisely when its guard
holds and every earlier guard fails). -/
theorem exception_classification_C3 (c : Conn) (m : Msg) (i : Nat) (e : EvalRec)
    (hid : m.id = some i) (hreg : lookupEval c i = some e) :
    (structured_cond m = true →
      classify_exception m = some ExnCase.structured ∧
      handle_exception c m =
        (updateEval c i { e with trace := m.mwTrace, status := "exception",
                                 value := some (structured_ex_text m e) }, [], true) ∧
      handle_exception c m = handle_exception c { m with ex := none, rootEx := none }) ∧
    (classify_exception m = some ExnCase.structured ↔ structured_cond m = true) ∧
    (classify_exception m = some ExnCase.rootExCase ↔
      structured_cond m = false ∧ m.rootEx.isSome = true) ∧
    (classify_exception m = some ExnCase.rawExCase ↔
      structured_cond m = false ∧ m.rootEx.isSome = false ∧ m.ex.isSome = true) ∧
    (classify_exception m = some ExnCase.nsNotFound ↔
      structured_cond m = false ∧ m.rootEx.isSome = false ∧ m.ex.isSome = false ∧
      "namespace-not-found" ∈ m.status.getD []) ∧
    (classify_exception m = none → handle_exception c m = (c, [], false)) ∧
    (classify_exception m = some ExnCase.rootExCase →
      handle_exception c m =
        (updateEval c i { e with status := "exception", value := m.rootEx }, [], true)) ∧
    (classify_exception m = some ExnCase.rawExCase →
      handle_exception c m =
        (updateEval c i { e with status := "exception", value := m.ex }, [], true)) ∧
    (classify_exception m = some ExnCase.nsNotFound →
      handle_exception c m =
        (updateEval c i { e with
           status := "exception",
           value := some ("Namespace not found: " ++ m.ns.getD "") }, [], false)) := by
  have hb := handle_exception_classified c m i e hid hreg
  have hb' := handle_exception_classified c { m with ex := none, rootEx := none } i e hid hreg
  refine ⟨?_, ?_, ?_, ?_, ?_, ?_, ?_, ?_, ?_⟩
  · intro hsc
    have hcls : classify_exception m = some ExnCase.structured := by
      simp [classify_exception, hsc]
    have hcls' : classify_exception { m with ex := none, rootEx := none } =
        some ExnCase.structured := by
      simp only [classify_exception, structured_cond] at hsc ⊢
      simp [hsc]
    refine ⟨hcls, ?_, ?_⟩
    · rw [hb, hcls]
    · rw [hb, hcls, hb', hcls']; rfl
  · unfold classify_exception
    split_ifs with hsc hre hex hns <;> simp_all
  · unfold classify_exception
    split_ifs with hsc hre hex hns <;> simp_all
  · unfold classify_exception
    split_ifs with hsc hre hex hns <;> simp_all
  · unfold classify_exception
    split_ifs with hsc hre hex hns <;> simp_all
  · intro h
    rw [hb, h]
  · intro h
    rw [hb, h]
  · intro h
    rw [hb, h]
  · intro h
    rw [hb, h]

/-- The registered pending record used by the C3 witness. -/
def c3_rec : EvalRec :=
  { id := 10, view := none, status := "pending", code := "(/ 1 0)",
    session := some "sessA", value := none, trace := none }

/-- A ready connection holding `c3_rec`, used by the C3 witness. -/
def c3_conn : Conn :=
  { profile := some Profile.clojure, session := some "sess0", status := none,
    evals := [(10, c3_rec)], socket := true, host := some "localhost",
    port := "8888", cljsBuild := none }

/-- An exception response carrying both the structured root-cause fields
and the raw `ex`/`root-ex` fields, used by the C3 witness. -/
def c3_msg : Msg :=
  { id := some 10,
    status := some ["eval-error"],
    ex := some "class clojure.lang.ExceptionInfo",
    rootEx := some "class java.lang.ArithmeticException",
    mwRootExClass := some "ArithmeticException",
    mwRootExMsg := some "Divide by zero",
    mwTrace := some "at clojure.lang.Numbers.divide" }

/-- Witness for C3: on a concrete message carrying both the structured
fields and raw `ex`, the structured branch fires and the raw fields are
irrelevant to the outcome. -/
theorem exception_classification_C3_witness :
    c3_msg.ex.isSome = true ∧
    classify_exception c3_msg = some ExnCase.structured ∧
    handle_exception c3_conn c3_msg =
      (updateEval c3_conn 10 { c3_rec with
         trace := c3_msg.mwTrace, status := "exception",
         value := some (structured_ex_text c3_msg c3_rec) }, [], true) ∧
    handle_exception c3_conn c3_msg =
      handle_exception c3_conn { c3_msg with ex := none, rootEx := none } :=
  have h := (exception_classification_C3 c3_conn c3_msg 10 c3_rec rfl rfl).1 rfl
  ⟨rfl, h.1, h.2.1, h.2.2⟩

/-- Every id returned by the allocator starting at counter `n` is at
least `n`. -/
theorem allocIds_le (n k : Nat) : ∀ j ∈ allocIds n k, n ≤ j := by
  induction k generalizing n with
  | zero => intro j hj; cases hj
  | succ k ih =>
    intro j hj
    cases hj with
    | head => exact Nat.le_refl n
    | tail _ h => exact Nat.le_of_succ_le (ih (n + 1) j h)

/-- C5 (amended): identifier allocation (`Eval.next_id`) is strictly
increasing and never repeats across any sequence of allocations, and an
evaluation request built by `eval_msg` carries exactly the freshly
allocated identifier.  (The original claim that EVERY request sent while
connected has an id above all previously issued identifiers fails:
handshake requests reuse the fixed ids 1–4, see the counterexample.) -/
theorem request_id_monotonic_C5 :
    (∀ n k, List.Pairwise (· < ·) (allocIds n k)) ∧
    (∀ c base eid, (eval_msg_build c base eid).id = some eid) := by
  constructor
  · intro n k
    induction k generalizing n with
    | zero => exact List.Pairwise.nil
    | succ k ih =>
      refine List.Pairwise.cons ?_ (ih (n + 1))
      intro j hj
      exact Nat.lt_of_succ_le (allocIds_le (n + 1) k j hj)
  · intro c base eid
    unfold eval_msg_build get_middleware_opts
    split <;> rfl

/-- Settings for the C5 reconnect scenario (no shared init code). -/
def c5_settings : Settings := { evalShared := none, middlewareSourceFile := "MW" }

/-- The identifier handed out by the first allocation of the process:
`Eval.next_id` starts at 10 and is a class attribute, never reset by
`connect`/`disconnect`. -/
def c5_first_alloc : Nat := (allocId nextIdInit).1

/-- The requests the handshake sends on a (re)connect: `read_loop`'s
`clone(id 1)` and everything `handle_connect` sends after it. -/
def c5_reconnect_trace : List Msg :=
  (handshakeTrace c5_settings (connInit Profile.clojure none)).2

/-- C5 counterexample: after the process has issued identifier 10 to an
evaluation, reconnecting sends handshake requests with ids 1, 2 and 4 —
the `load-file(id 2)` request is sent while connected (it carries the
session token), yet its id is not greater than the previously issued
identifier 10.  The claim as stated is therefore false. -/
theorem request_id_monotonic_C5_counterexample :
    allocIds nextIdInit 1 = [10] ∧
    c5_first_alloc = 10 ∧
    c5_reconnect_trace.map Msg.id = [some 1, some 2, some 4] ∧
    c5_reconnect_trace.map Msg.session = [none, some "sess0", some "sess0"] ∧
    ¬ (∀ m ∈ c5_reconnect_trace, ∀ j, m.id = some j → c5_first_alloc < j) := by
  refine ⟨rfl, rfl, rfl, rfl, ?_⟩
  intro h
  have hm : ({ op := some "load-file", session := some "sess0",
               file := some "MW", id := some 2 } : Msg) ∈ c5_reconnect_trace := by decide
  have := h _ hm 2 rfl
  simp [c5_first_alloc, allocId, nextIdInit] at this

/-- C8 (amended): every request the client sends carries `op`.  The
handshake requests all carry `op` and `id`; an `eval_msg` request
carries the fresh `id` and the connection's session (its `op` survives
the falsy-filter because operation names are non-empty).  However the
two interrupt requests carry `session` and `interrupt-id` but no `id`
key, and the background eval-code command's request carries `id` but no
`session` key — the original claim fails for those, see the
counterexample. -/
theorem request_shape_C8 :
    (cloneMsg.op = some "clone" ∧ cloneMsg.id = some 1 ∧ cloneMsg.session = none) ∧
    (∀ st c m x, x ∈ (handle_connect st c m).2.1 →
       x.op.isSome = true ∧ x.id.isSome = true) ∧
    (∀ c base eid, (eval_msg_build c base eid).op = sfS base.op ∧
       (eval_msg_build c base eid).id = some eid ∧
       (eval_msg_build c base eid).session = c.session) ∧
    (∀ s, s ≠ "" → sfS (some s) = some s) ∧
    (∀ c code nsOpt eid, (eval_code_msg c code nsOpt eid).op = some "eval" ∧
       (eval_code_msg c code nsOpt eid).id = some eid ∧
       (eval_code_msg c code nsOpt eid).session = none) ∧
    (∀ e, (interruptMsg e).op = some "interrupt" ∧ (interruptMsg e).session = e.session ∧
       (interruptMsg e).interruptId = some e.id ∧ (interruptMsg e).id = none) ∧
    (∀ e, (interrupt_command_msg e).op = some "interrupt" ∧
       (interrupt_command_msg e).session = e.session ∧
       (interrupt_command_msg e).interruptId = some e.id ∧
       (interrupt_command_msg e).id = none) ∧
    (∀ c symName eid nsName, (lookup_msg c symName eid nsName).op = some "lookup" ∧
       (lookup_msg c symName eid nsName).id = some eid ∧
       (lookup_msg c symName eid nsName).session = c.session) := by
  refine ⟨⟨rfl, rfl, rfl⟩, ?_, ?_, ?_, ?_, ?_, ?_, ?_⟩
  · intro st c m x hx
    unfold handle_connect at hx
    split_ifs at hx <;> simp_all [addMiddlewareMsg]
  · intro c base eid
    unfold eval_msg_build get_middleware_opts
    split <;> exact ⟨rfl, rfl, rfl⟩
  · intro s hs
    simp [sfS, hs]
  · intro c code nsOpt eid
    unfold eval_code_msg get_middleware_opts
    split <;> exact ⟨rfl, rfl, rfl⟩
  · exact fun e => ⟨rfl, rfl, rfl, rfl⟩
  · exact fun e => ⟨rfl, rfl, rfl, rfl⟩
  · exact fun c symName eid nsName => ⟨rfl, rfl, rfl⟩

/-- A pending record with a session, used by the C8 theorems. -/
def c8_rec : EvalRec :=
  { id := 12, view := none, status := "pending", code := "(loop)",
    session := some "sessC", value := none, trace := none }

/-- A ready connection (session established), used by the C8 theorems. -/
def c8_conn : Conn :=
  { profile := some Profile.clojure, session := some "sess0", status := none,
    evals := [(12, c8_rec)], socket := true, host := some "localhost",
    port := "8888", cljsBuild := none }

/-- Witness for C8 (amended) at concrete requests. -/
theorem request_shape_C8_witness :
    ((eval_msg_build c8_conn { op := some "eval", code := some "(+ 1 2)" } 13).op = some "eval" ∧
     (eval_msg_build c8_conn { op := some "eval", code := some "(+ 1 2)" } 13).id = some 13 ∧
     (eval_msg_build c8_conn { op := some "eval", code := some "(+ 1 2)" } 13).session = some "sess0") ∧
    (interruptMsg c8_rec).id = none ∧
    (eval_code_msg c8_conn "(+ 1 2)" none 13).session = none :=
  have h := request_shape_C8
  have h3 := h.2.2.1 c8_conn { op := some "eval", code := some "(+ 1 2)" } 13
  have h4 := h.2.2.2.1 "eval" (by decide)
  ⟨⟨by rw [h3.1]; simpa using h4, h3.2.1, h3.2.2⟩,
   (h.2.2.2.2.2.1 c8_rec).2.2.2,
   (h.2.2.2.2.1 c8_conn "(+ 1 2)" none 13).2.2⟩

/-- C8 counterexample: while a session exists (`some "sess0"`), the
discard of a pending record sends an interrupt request that has no `id`
key, and the eval-code command builds a request that has no `session`
key — falsifying the claim that once a session exists every request
carries both. -/
theorem request_shape_C8_counterexample :
    c8_conn.session = some "sess0" ∧
    (erase_eval c8_conn c8_rec).2 = [interruptMsg c8_rec] ∧
    (interruptMsg c8_rec).op = some "interrupt" ∧
    (interruptMsg c8_rec).id = none ∧
    (eval_code_msg c8_conn "(+ 1 2)" none 13).id = some 13 ∧
    (eval_code_msg c8_conn "(+ 1 2)" none 13).session = none :=
  ⟨rfl, rfl, rfl, rfl, rfl, rfl⟩

/-- One `SocketIO.read` call: at most `n` bytes come back, they are
exactly the next bytes of the not-yet-delivered stream (the cursor only
advances, bytes are never re-delivered), the state invariant is
preserved, and for `n > 0` the result is empty exactly at
end-of-stream. -/
theorem SocketReader.read_spec (s : SocketReader) (n : Nat) (hwf : s.wf) :
    ((s.read n).1).length ≤ n ∧
    (s.read n).1 ++ (s.read n).2.rest = s.rest ∧
    (s.read n).2.wf ∧
    (0 < n → ((s.read n).1 = [] ↔ s.rest = [])) := by
  obtain ⟨hpos, hch⟩ := hwf
  by_cases hrefill : s.buffer = [] ∨ (s.buffer.length : Int) ≤ s.pos
  · have hdrop : s.buffer.drop s.pos.toNat = [] := by
      rcases hrefill with h | h
      · simp [h]
      · exact List.drop_eq_nil_of_le (by omega)
    have hrest : s.rest = s.chunks.flatten := by
      rw [SocketReader.rest, hdrop, List.nil_append]
    cases hcks : s.chunks with
    | nil =>
      have hread : s.read n =
          ([], { chunks := [], buffer := [], pos := 0 }) := by
        unfold SocketReader.read
        rw [if_pos hrefill, hcks]
        simp [recvChunk]
      rw [hread, hrest, hcks]
      dsimp only
      refine ⟨by simp, by simp [SocketReader.rest], ⟨Or.inl (by simp), by simp⟩, by simp⟩
    | cons ch cks =>
      have hch0 : ch ≠ [] := hch ch (by rw [hcks]; exact List.mem_cons_self ch cks)
      have hL : 0 < ch.length := List.length_pos.mpr hch0
      have hread : s.read n =
          (ch.take (min n ch.length),
           { chunks := cks, buffer := ch, pos := ((min n ch.length : Nat) : Int) }) := by
        unfold SocketReader.read
        rw [if_pos hrefill, hcks]
        simp [recvChunk]
      rw [hread, hrest, hcks]
      dsimp only
      refine ⟨by simp, ?_, ?_, ?_⟩
      · rw [SocketReader.rest]
        simp only [Int.toNat_ofNat, List.flatten_cons]
        rw [← List.append_assoc]
        congr 1
        simp [List.take_append_drop]
      · refine ⟨Or.inl (by simp), fun ck hmem => hch ck ?_⟩
        rw [hcks]
        exact List.mem_cons_of_mem ch hmem
      · intro hn
        constructor
        · intro habs
          rw [List.take_eq_nil_iff] at habs
          rcases habs with h | h
          · omega
          · exact absurd h hch0
        · intro habs
          rw [List.flatten_cons, List.append_eq_nil] at habs
          exact absurd habs.1 hch0
  · push_neg at hrefill
    obtain ⟨hb, hlt⟩ := hrefill
    have h0 : 0 ≤ s.pos := by
      rcases hpos with h | h
      · exact h
      · exact absurd h hb
    have hblt : s.pos.toNat < s.buffer.length := by omega
    have hread : s.read n =
        ((s.buffer.drop s.pos.toNat).take
           (min (s.pos.toNat + n) s.buffer.length - s.pos.toNat),
         { s with pos := ((min (s.pos.toNat + n) s.buffer.length : Nat) : Int) }) := by
      unfold SocketReader.read
      rw [if_neg]
      push_neg
      exact ⟨hb, hlt⟩
    rw [hread]
    dsimp only
    refine ⟨?_, ?_, ?_, ?_⟩
    · simp [List.length_take]
      omega
    · rw [SocketReader.rest, SocketReader.rest]
      simp only [Int.toNat_ofNat]
      rw [← List.append_assoc]
      congr 1
      have hdd : s.buffer.drop (min (s.pos.toNat + n) s.buffer.length) =
          (s.buffer.drop s.pos.toNat).drop
            (min (s.pos.toNat + n) s.buffer.length - s.pos.toNat) := by
        rw [List.drop_drop]
        congr 1
        omega
      rw [hdd, List.take_append_drop]
    · refine ⟨Or.inl ?_, hch⟩
      show (0 : Int) ≤ ((min (s.pos.toNat + n) s.buffer.length : Nat) : Int)
      omega
    · intro hn
      constructor
      · intro habs
        rw [List.take_eq_nil_iff] at habs
        rcases habs with h | h
        · omega
        · have := congrArg List.length h
          simp at this
          omega
      · intro habs
        rw [SocketReader.rest, List.append_eq_nil] at habs
        have := congrArg List.length habs.1
        simp at this
        omega

/-- Any sequence of `read` calls delivers a prefix of the stream, in
order, with no byte delivered twice: the concatenation of all results
followed by the still-undelivered rest is the original stream. -/
theorem SocketReader.readMany_rest (s : SocketReader) (ks : List Nat) (hwf : s.wf) :
    (s.readMany ks).1.flatten ++ (s.readMany ks).2.rest = s.rest := by
  induction ks generalizing s with
  | nil => rfl
  | cons k ks ih =>
    obtain ⟨_, hrest, hwf', _⟩ := SocketReader.read_spec s k hwf
    unfold SocketReader.readMany
    dsimp only
    rw [List.flatten_cons, List.append_assoc, ih (s.read k).2 hwf', hrest]

/-- C9: for every `read(n)` with `n > 0` on a well-formed reader, the
result has length at most `n`, consists exactly of the next
not-yet-delivered bytes (so nothing returned by an earlier read is ever
returned again, across any sequence of reads), and is empty exactly
when the underlying stream is at end-of-stream. -/
theorem socket_read_C9 (s : SocketReader) (n : Nat) (ks : List Nat)
    (hwf : s.wf) (hn : 0 < n) :
    ((s.read n).1).length ≤ n ∧
    (s.read n).1 ++ (s.read n).2.rest = s.rest ∧
    ((s.read n).1 = [] ↔ s.rest = []) ∧
    (s.readMany ks).1.flatten ++ (s.readMany ks).2.rest = s.rest := by
  obtain ⟨h1, h2, h3, h4⟩ := SocketReader.read_spec s n hwf
  exact ⟨h1, h2, h4 hn, SocketReader.readMany_rest s ks hwf⟩

/-- A freshly initialised reader over two pending socket chunks, used by
the C9 witness. -/
def c9_reader : SocketReader := SocketReader.init [[100, 58, 51], [49, 50]]

/-- Witness for C9 at a concrete reader and read size. -/
theorem socket_read_C9_witness :
    ((c9_reader.read 2).1).length ≤ 2 ∧
    (c9_reader.read 2).1 ++ (c9_reader.read 2).2.rest = c9_reader.rest ∧
    ((c9_reader.read 2).1 = [] ↔ c9_reader.rest = []) ∧
    (c9_reader.readMany [2, 2, 2]).1.flatten ++
      (c9_reader.readMany [2, 2, 2]).2.rest = c9_reader.rest :=
  socket_read_C9 c9_reader 2 [2, 2, 2] ⟨Or.inr rfl, by decide⟩ (by decide)
